import Mathlib

/-!
Verification of SuPA (SURF ultimate Provider Agent) against its
natural-language specification.

Part 1 embeds `src/supa/main.py`: the shared `Settings` object, the
`CommonOptionsState` dataclass, the three common Click option callbacks
(database-file, scheduler-max-workers, domain-name) and the `serve`
sub-command.  Python mutation of the module-level `settings` object is made
explicit by threading a `Settings` value through each function.

Part 2 models the reservation core (state machine, record store, reserve
operation, transactional event application).  That code lives in the
`supa.connection` and `supa.db` packages, which are only referenced from
`tests/conftest.py`; the definitions are therefore modelled from the spec
(sections 3, 4.1, 4.2, 6 and 7) and are marked as such.
-/

namespace SuPA

/-- The shared configuration object `supa.settings` as used by
`src/supa/main.py`: the fields its callbacks and the `serve` sub-command
read or write. -/
structure Settings where
  database_file : Option String
  scheduler_max_workers : Nat
  domain_name : String
  grpc_max_workers : Nat
  grpc_insecure_address_port : String
deriving DecidableEq, Repr

/-- The `CommonOptionsState` dataclass of `main.py`: captures common options
shared between Click sub-commands; every field defaults to `None`. -/
structure CommonOptionsState where
  database_file : Option String := none
  scheduler_max_workers : Option Nat := none
  domain_name : Option String := none
deriving DecidableEq, Repr

/-- The part of the Click `Context` the callbacks touch: the context object
slot holding the `CommonOptionsState` instance (absent until ensured). -/
structure ClickCtx where
  obj : Option CommonOptionsState
deriving DecidableEq, Repr

/-- `ctx.ensure_object(CommonOptionsState)`: return the existing context
object, or create a default-initialised one and store it in the context. -/
def ensureObject (ctx : ClickCtx) : CommonOptionsState × ClickCtx :=
  match ctx.obj with
  | some cos => (cos, ctx)
  | none =>
      let cos : CommonOptionsState := {}
      (cos, { obj := some cos })

/-- The callback of `database_file_option` (`main.py` lines 88-96): ensure
the context object; when the option value is present, set
`cos.database_file` and mutate `settings.database_file`; always return the
value unchanged. -/
def databaseFileCallback (ctx : ClickCtx) (st : Settings) (value : Option String) :
    ClickCtx × Settings × Option String :=
  let ec := ensureObject ctx
  match value with
  | some v =>
      let cos := { ec.1 with database_file := some v }
      ({ obj := some cos }, { st with database_file := cos.database_file }, value)
  | none => (ec.2, st, value)

/-- The callback of `scheduler_max_workers_option` (`main.py` lines
110-118): same shape as the database-file callback, for
`scheduler_max_workers`. -/
def schedulerMaxWorkersCallback (ctx : ClickCtx) (st : Settings) (value : Option Nat) :
    ClickCtx × Settings × Option Nat :=
  let ec := ensureObject ctx
  match value with
  | some v =>
      let cos := { ec.1 with scheduler_max_workers := some v }
      ({ obj := some cos }, { st with scheduler_max_workers := v }, value)
  | none => (ec.2, st, value)

/-- The callback of `domain_name_option` (`main.py` lines 133-141): same
shape as the database-file callback, for `domain_name`. -/
def domainNameCallback (ctx : ClickCtx) (st : Settings) (value : Option String) :
    ClickCtx × Settings × Option String :=
  let ec := ensureObject ctx
  match value with
  | some v =>
      let cos := { ec.1 with domain_name := some v }
      ({ obj := some cos }, { st with domain_name := v }, value)
  | none => (ec.2, st, value)

/-- Option names declared by `common_options` (`main.py` lines 153-158),
in the order the decorators attach them. -/
def commonOptionNames : List String :=
  ["--database-file", "--scheduler-max-workers", "--domain-name"]

/-- The full option surface of the `serve` sub-command: its two own options
plus the common options. -/
def serveOptionNames : List String :=
  ["--grpc-max-workers", "--grpc-insecure-address-port"] ++ commonOptionNames

/-- Observable outcome of running `serve` (`main.py` lines 186-204):
the settings value at the moment `init_app()` is called, the worker count
handed to the gRPC thread pool, and the address/port the server binds. -/
structure ServeResult where
  settingsAtInit : Settings
  threadPoolMaxWorkers : Nat
  boundAddressPort : String
deriving DecidableEq, Repr

/-- The `serve` sub-command body: overwrite `settings.grpc_max_workers` and
`settings.grpc_insecure_address_port` from the command-line options, call
`init_app()`, then build the thread pool from `settings.grpc_max_workers`
and bind `settings.grpc_insecure_address_port`. -/
def serve (grpcMaxWorkers : Nat) (grpcInsecureAddressPort : String)
    (st : Settings) : ServeResult :=
  let st := { st with grpc_max_workers := grpcMaxWorkers }
  let st := { st with grpc_insecure_address_port := grpcInsecureAddressPort }
  { settingsAtInit := st
  , threadPoolMaxWorkers := st.grpc_max_workers
  , boundAddressPort := st.grpc_insecure_address_port }

/-- Modelled from the spec: the states of `ReservationStateMachine`
(`supa.connection.fsm`, not under `src/`; referenced by
`tests/conftest.py`), per spec section 4.1. -/
inductive ReservationState
  | ReserveStart
  | ReserveChecking
  | ReserveHeld
  | ReserveCommitting
  | ReserveAborting
  | ReserveTimeout
deriving DecidableEq, Repr

/-- Modelled from the spec: the persisted value of each reservation state,
written into the `reservation_state` column as in `tests/conftest.py`
(`ReservationStateMachine.ReserveHeld.value` and friends). -/
def ReservationState.value : ReservationState → String
  | .ReserveStart => "ReserveStart"
  | .ReserveChecking => "ReserveChecking"
  | .ReserveHeld => "ReserveHeld"
  | .ReserveCommitting => "ReserveCommitting"
  | .ReserveAborting => "ReserveAborting"
  | .ReserveTimeout => "ReserveTimeout"

/-- The member states of the reservation state machine, enumerated. -/
def ReservationState.all : List ReservationState :=
  [.ReserveStart, .ReserveChecking, .ReserveHeld,
   .ReserveCommitting, .ReserveAborting, .ReserveTimeout]

/-- Modelled from the spec: the events of the reservation state machine,
per spec section 4.1. -/
inductive ReservationEvent
  | reserve
  | confirmed
  | failed
  | commit
  | abort
  | timeout
  | acknowledge
deriving DecidableEq, Repr

/-- Modelled from the spec: the reservation transition table of section
4.1; undefined pairs are rejected (`none`). -/
def rsmTransition : ReservationState → ReservationEvent → Option ReservationState
  | .ReserveStart, .reserve => some .ReserveChecking
  | .ReserveChecking, .confirmed => some .ReserveHeld
  | .ReserveChecking, .failed => some .ReserveStart
  | .ReserveHeld, .commit => some .ReserveCommitting
  | .ReserveHeld, .abort => some .ReserveAborting
  | .ReserveHeld, .timeout => some .ReserveTimeout
  | .ReserveCommitting, .confirmed => some .ReserveStart
  | .ReserveCommitting, .failed => some .ReserveHeld
  | .ReserveAborting, .confirmed => some .ReserveStart
  | .ReserveTimeout, .acknowledge => some .ReserveStart
  | _, _ => none

/-- Modelled from the spec: the fields of a Connection record (spec
section 3) that the claims need; times are UTC instants as integers. -/
structure Reservation where
  connection_id : Nat
  version : Nat
  bandwidth : Int
  start_time : Int
  end_time : Int
  src_port : Option String
  dst_port : Option String
  reservation_state : ReservationState
deriving DecidableEq, Repr

/-- Modelled from the spec: the error taxonomy of section 7 (the members
the claims mention). -/
inductive SupaError
  | validationError
  | connectionNotFound
  | versionConflict
  | invalidOperationForState
deriving DecidableEq, Repr

/-- Modelled from the spec: a reserve request (spec sections 4.2 and 8):
verb parameters, an optional connection id (absent for initial reserve),
and the caller's expected version (absent for creation). -/
structure ReserveRequest where
  connection_id : Option Nat
  expected_version : Option Nat
  bandwidth : Int
  start_time : Int
  end_time : Int
  src_port : Option String
  dst_port : Option String
deriving DecidableEq, Repr

/-- Modelled from the spec: the transactional Record Store (spec section
6): records addressed by connection id, with the store assigning fresh ids
on creation. -/
structure Store where
  records : Nat → Option Reservation
  nextId : Nat

/-- A store is fresh when no record sits at or beyond the next id the
store would assign; this is the store-side uniqueness invariant. -/
def Store.fresh (st : Store) : Prop :=
  ∀ j, st.nextId ≤ j → st.records j = none

/-- Write one record into the store at its connection id. -/
def Store.put (st : Store) (r : Reservation) : Store :=
  { st with records := fun i => if i = r.connection_id then some r else st.records i }

/-- Modelled from the spec: parameter validation at the RPC boundary (spec
section 7): non-positive bandwidth, `endTime <= startTime`, or a missing
mandatory endpoint field is a `ValidationError`. -/
def validateReserve (req : ReserveRequest) : Option SupaError :=
  if req.bandwidth ≤ 0 then some .validationError
  else if req.end_time ≤ req.start_time then some .validationError
  else if req.src_port = none ∨ req.dst_port = none then some .validationError
  else none

/-- Modelled from the spec: the `reserve` operation (spec sections 4.2 and
8).  Validation runs first, before any record is loaded or any state
machine is driven.  A request on a non-existent connection creates a new
record with a store-assigned id, `version = 0` and state `ReserveChecking`;
a request on an existing connection checks the expected version and drives
the `reserve` event through the reservation state machine, bumping the
version by one on success. -/
def reserve (st : Store) (req : ReserveRequest) :
    Store × Except SupaError Reservation :=
  match validateReserve req with
  | some e => (st, .error e)
  | none =>
      let existing :=
        match req.connection_id with
        | none => none
        | some cid => st.records cid
      match existing with
      | none =>
          let r : Reservation :=
            { connection_id := st.nextId
            , version := 0
            , bandwidth := req.bandwidth
            , start_time := req.start_time
            , end_time := req.end_time
            , src_port := req.src_port
            , dst_port := req.dst_port
            , reservation_state := .ReserveChecking }
          ({ records := fun i => if i = st.nextId then some r else st.records i
           , nextId := st.nextId + 1 }, .ok r)
      | some r =>
          if req.expected_version ≠ some r.version then
            (st, .error .versionConflict)
          else
            match rsmTransition r.reservation_state .reserve with
            | none => (st, .error .invalidOperationForState)
            | some s =>
                let r2 := { r with reservation_state := s, version := r.version + 1 }
                (st.put r2, .ok r2)

/-- Modelled from the spec: the transactional apply step for an internal
or external event on an existing connection (spec section 4.2): load the
record, check the expected version, drive the reservation state machine,
and on success persist with the version incremented by exactly one; any
rejection leaves the store untouched. -/
def applyEvent (st : Store) (cid expectedVersion : Nat) (ev : ReservationEvent) :
    Store × Except SupaError Reservation :=
  match st.records cid with
  | none => (st, .error .connectionNotFound)
  | some r =>
      if expectedVersion ≠ r.version then (st, .error .versionConflict)
      else
        match rsmTransition r.reservation_state ev with
        | none => (st, .error .invalidOperationForState)
        | some s =>
            let r2 := { r with reservation_state := s, version := r.version + 1 }
            (st.put r2, .ok r2)

/-- An operation against the store: a reserve request or an event applied
to an existing connection. -/
inductive Op
  | opReserve (req : ReserveRequest)
  | opEvent (cid : Nat) (expectedVersion : Nat) (ev : ReservationEvent)

/-- One operation step against the store. -/
def step (st : Store) (op : Op) : Store × Except SupaError Reservation :=
  match op with
  | .opReserve req => reserve st req
  | .opEvent cid v ev => applyEvent st cid v ev

/-- Run a sequence of operations against the store, keeping the final
store. -/
def runOps (st : Store) : List Op → Store
  | [] => st
  | op :: ops => runOps (step st op).1 ops

/-- Store well-formedness: no record sits at or beyond the next id to be
assigned, and every record sits at its own connection id (the spec's
`connectionId` uniqueness/immutability invariant). -/
def Store.wf (st : Store) : Prop :=
  (∀ j, st.nextId ≤ j → st.records j = none) ∧
  (∀ i r, st.records i = some r → r.connection_id = i)

/-- A concrete settings value for concrete evaluations. -/
def exampleSettings : Settings :=
  { database_file := none
  , scheduler_max_workers := 12
  , domain_name := "example.domain:2001"
  , grpc_max_workers := 8
  , grpc_insecure_address_port := "localhost:50051" }

/-- The empty record store. -/
def emptyStore : Store := { records := fun _ => none, nextId := 0 }

/-- A concrete well-formed reserve request: bandwidth 10, start 10 minutes
(600 seconds) in the future, end 20 minutes in the future, both endpoint
ports present, no connection id (initial reserve). -/
def exampleRequest : ReserveRequest :=
  { connection_id := none
  , expected_version := none
  , bandwidth := 10
  , start_time := 600
  , end_time := 1200
  , src_port := some "port1"
  , dst_port := some "port2" }

/-- A concrete malformed reserve request: non-positive bandwidth. -/
def badRequest : ReserveRequest :=
  { exampleRequest with bandwidth := 0 }

/-- The record the store creates for `exampleRequest`. -/
def exampleReservation : Reservation :=
  { connection_id := 0
  , version := 0
  , bandwidth := 10
  , start_time := 600
  , end_time := 1200
  , src_port := some "port1"
  , dst_port := some "port2"
  , reservation_state := .ReserveChecking }

/-- A concrete store holding `exampleReservation` at connection id 0. -/
def startedStore : Store :=
  { records := fun i => if i = 0 then some exampleReservation else none
  , nextId := 1 }

/-- `exampleReservation` after a confirmed event: held, version 1. -/
def heldReservation : Reservation :=
  { exampleReservation with reservation_state := .ReserveHeld, version := 1 }

/-!  Theorems. -/

/-- C1 counterexample: argument parsing is not pure with respect to shared
configuration — supplying the database-file option makes the callback
mutate the shared settings object: the settings value after the callback
differs from the value before. -/
theorem parse_not_pure_counterexample :
    (databaseFileCallback { obj := none } exampleSettings (some "supa.db")).2.1
      ≠ exampleSettings := by
  decide

/-- C1 (amended): each common-option callback, given a non-None value,
mutates the shared settings object as a side effect of argument parsing,
writing the value into the corresponding settings attribute; the `serve`
sub-command likewise overwrites the two gRPC settings attributes from its
options, and these mutations all happen before `init_app` runs, so the
configuration the components observe at startup is already final. -/
theorem parse_mutates_settings_before_init :
    (∀ ctx st v, (databaseFileCallback ctx st (some v)).2.1
        = { st with database_file := some v }) ∧
    (∀ ctx st v, (schedulerMaxWorkersCallback ctx st (some v)).2.1
        = { st with scheduler_max_workers := v }) ∧
    (∀ ctx st v, (domainNameCallback ctx st (some v)).2.1
        = { st with domain_name := v }) ∧
    (∀ g p st, (serve g p st).settingsAtInit
        = { st with grpc_max_workers := g, grpc_insecure_address_port := p }) :=
  ⟨fun _ _ _ => rfl, fun _ _ _ => rfl, fun _ _ _ => rfl, fun _ _ _ => rfl⟩

/-- C2 counterexample: component behaviour is not determined solely by the
explicitly passed configuration — two `serve` runs with identical explicit
arguments but different ambient settings observe different configuration
at `init_app` time. -/
theorem ambient_settings_counterexample :
    serve 8 "localhost:50051" exampleSettings
      ≠ serve 8 "localhost:50051"
          { exampleSettings with database_file := some "other.db" } := by
  decide

/-- C2 (amended): components read the process-wide global settings object:
`serve` sizes the gRPC thread pool from `settings.grpc_max_workers` and
binds `settings.grpc_insecure_address_port` after overwriting them from its
arguments, while the remaining settings attributes observed at `init_app`
time (database file, scheduler worker count, domain name) come from the
ambient settings state, not from any explicit argument of `serve`. -/
theorem serve_reads_ambient_settings : ∀ g p st,
    (serve g p st).threadPoolMaxWorkers = (serve g p st).settingsAtInit.grpc_max_workers ∧
    (serve g p st).boundAddressPort = (serve g p st).settingsAtInit.grpc_insecure_address_port ∧
    (serve g p st).settingsAtInit.database_file = st.database_file ∧
    (serve g p st).settingsAtInit.scheduler_max_workers = st.scheduler_max_workers ∧
    (serve g p st).settingsAtInit.domain_name = st.domain_name :=
  fun _ _ _ => ⟨rfl, rfl, rfl, rfl, rfl⟩

/-- C3: the command-line configuration surface of `serve` is exactly the
gRPC worker count, the gRPC bind address/port, the database file location,
the scheduler worker-pool size and the domain name; the supplied
`--grpc-max-workers` and `--grpc-insecure-address-port` values overwrite
the corresponding settings attributes before `init_app` is called, the
thread pool is created with exactly `settings.grpc_max_workers` workers,
and the server binds `settings.grpc_insecure_address_port`. -/
theorem serve_configuration_surface :
    serveOptionNames = ["--grpc-max-workers", "--grpc-insecure-address-port",
        "--database-file", "--scheduler-max-workers", "--domain-name"] ∧
    ∀ g p st,
      (serve g p st).settingsAtInit.grpc_max_workers = g ∧
      (serve g p st).settingsAtInit.grpc_insecure_address_port = p ∧
      (serve g p st).threadPoolMaxWorkers = (serve g p st).settingsAtInit.grpc_max_workers ∧
      (serve g p st).boundAddressPort = (serve g p st).settingsAtInit.grpc_insecure_address_port :=
  ⟨rfl, fun _ _ _ => ⟨rfl, rfl, rfl, rfl⟩⟩

/-- C4: the reservation state machine's states are exactly ReserveStart,
ReserveChecking, ReserveHeld, ReserveCommitting, ReserveAborting and
ReserveTimeout; ReserveHeld, ReserveCommitting and ReserveAborting are
pairwise distinct members, each with its own distinct persisted value. -/
theorem reservation_states_exact :
    (∀ s : ReservationState, s ∈ ReservationState.all) ∧
    ReservationState.all = [.ReserveStart, .ReserveChecking, .ReserveHeld,
        .ReserveCommitting, .ReserveAborting, .ReserveTimeout] ∧
    (ReservationState.ReserveHeld ≠ .ReserveCommitting ∧
     ReservationState.ReserveHeld ≠ .ReserveAborting ∧
     ReservationState.ReserveCommitting ≠ .ReserveAborting) ∧
    (∀ s t : ReservationState, s.value = t.value → s = t) := by
  refine ⟨?_, rfl, by refine ⟨?_, ?_, ?_⟩ <;> decide, ?_⟩
  · intro s
    cases s <;> simp [ReservationState.all]
  · intro s t h
    cases s <;> cases t <;> first | rfl | simp [ReservationState.value] at h

/-- C4 witness: membership and value-injectivity at concrete states. -/
theorem reservation_states_exact_witness :
    ReservationState.ReserveCommitting ∈ ReservationState.all ∧
    ReservationState.ReserveHeld = ReservationState.ReserveHeld :=
  ⟨reservation_states_exact.1 .ReserveCommitting,
   reservation_states_exact.2.2.2 .ReserveHeld .ReserveHeld rfl⟩

/-- C8: every common-option callback returns exactly the value it
received, whether or not that value is None. -/
theorem callbacks_return_value_unchanged :
    (∀ ctx st v, (databaseFileCallback ctx st v).2.2 = v) ∧
    (∀ ctx st v, (schedulerMaxWorkersCallback ctx st v).2.2 = v) ∧
    (∀ ctx st v, (domainNameCallback ctx st v).2.2 = v) := by
  refine ⟨?_, ?_, ?_⟩ <;> intro ctx st v <;> cases v <;> rfl

/-- C9: a common-option callback invoked with value None leaves every
attribute of the global settings object unchanged, and when a
CommonOptionsState object already exists in the context it is returned
untouched. -/
theorem callbacks_none_no_mutation :
    (∀ ctx st, (databaseFileCallback ctx st none).2.1 = st) ∧
    (∀ ctx st, (schedulerMaxWorkersCallback ctx st none).2.1 = st) ∧
    (∀ ctx st, (domainNameCallback ctx st none).2.1 = st) ∧
    (∀ ctx st cos, ctx.obj = some cos →
      (databaseFileCallback ctx st none).1 = ctx ∧
      (schedulerMaxWorkersCallback ctx st none).1 = ctx ∧
      (domainNameCallback ctx st none).1 = ctx) := by
  refine ⟨fun _ _ => rfl, fun _ _ => rfl, fun _ _ => rfl, ?_⟩
  rintro ⟨o⟩ st cos h
  cases h
  exact ⟨rfl, rfl, rfl⟩

/-- C9 witness: concrete run of the three callbacks with value None on an
existing context object and the example settings. -/
theorem callbacks_none_no_mutation_witness :
    (databaseFileCallback { obj := some {} } exampleSettings none).2.1
        = exampleSettings ∧
    (databaseFileCallback { obj := some {} } exampleSettings none).1
        = { obj := some ({} : CommonOptionsState) } ∧
    (schedulerMaxWorkersCallback { obj := some {} } exampleSettings none).1
        = { obj := some ({} : CommonOptionsState) } ∧
    (domainNameCallback { obj := some {} } exampleSettings none).1
        = { obj := some ({} : CommonOptionsState) } := by
  have h := callbacks_none_no_mutation
  have h2 := h.2.2.2 { obj := some {} } exampleSettings {} rfl
  exact ⟨h.1 _ _, h2.1, h2.2.1, h2.2.2⟩

/-- C5: a reserve request with bandwidth 10, start 10 minutes (600
seconds) in the future and end 20 minutes in the future, addressed to a
non-existent connection, creates a record whose reservation state is
ReserveChecking and whose version is 0, with the connection id assigned by
the store at creation. -/
theorem reserve_creates_checking_record (st : Store) (req : ReserveRequest) (now : Int)
    (hb : req.bandwidth = 10)
    (hs : req.start_time = now + 600)
    (he : req.end_time = now + 1200)
    (hsrc : req.src_port ≠ none)
    (hdst : req.dst_port ≠ none)
    (hnx : ∀ cid, req.connection_id = some cid → st.records cid = none) :
    ∃ r, (reserve st req).2 = .ok r ∧
      r.reservation_state = .ReserveChecking ∧
      r.version = 0 ∧
      r.connection_id = st.nextId ∧
      (reserve st req).1.records st.nextId = some r := by
  have hval : validateReserve req = none := by
    unfold validateReserve
    have h1 : ¬ req.bandwidth ≤ 0 := by rw [hb]; norm_num
    have h2 : ¬ req.end_time ≤ req.start_time := by rw [hs, he]; omega
    have h3 : ¬ (req.src_port = none ∨ req.dst_port = none) := by
      rintro (h | h)
      · exact hsrc h
      · exact hdst h
    simp [h1, h2, h3]
  have hex : (match req.connection_id with
      | none => none
      | some cid => st.records cid) = (none : Option Reservation) := by
    cases hc : req.connection_id with
    | none => rfl
    | some cid => exact hnx cid hc
  unfold reserve
  rw [hval]
  simp only [hex]
  exact ⟨_, rfl, rfl, rfl, rfl, by simp⟩

/-- C5 witness: the example request against the empty store. -/
theorem reserve_creates_checking_record_witness :
    ∃ r, (reserve emptyStore exampleRequest).2 = .ok r ∧
      r.reservation_state = .ReserveChecking ∧
      r.version = 0 ∧
      r.connection_id = emptyStore.nextId ∧
      (reserve emptyStore exampleRequest).1.records emptyStore.nextId = some r :=
  reserve_creates_checking_record emptyStore exampleRequest 0
    rfl rfl rfl (by decide) (by decide)
    (fun cid h => by simp [exampleRequest] at h)

/-- C7: a reserve request with malformed parameters — non-positive
bandwidth, end time not after start time, or a missing mandatory endpoint
field — fails with ValidationError and is rejected synchronously, before
any state machine is driven, leaving the store entirely unchanged. -/
theorem validation_error_rejected (st : Store) (req : ReserveRequest)
    (h : req.bandwidth ≤ 0 ∨ req.end_time ≤ req.start_time ∨
         req.src_port = none ∨ req.dst_port = none) :
    (reserve st req).2 = .error .validationError ∧ (reserve st req).1 = st := by
  have hval : validateReserve req = some .validationError := by
    unfold validateReserve
    split_ifs with h1 h2 h3
    · rfl
    · rfl
    · rfl
    · rcases h with h | h | h | h
      · exact absurd h h1
      · exact absurd h h2
      · exact absurd (Or.inl h) h3
      · exact absurd (Or.inr h) h3
  unfold reserve
  rw [hval]
  exact ⟨rfl, rfl⟩

/-- C7 witness: the malformed example request (bandwidth 0) against the
empty store. -/
theorem validation_error_rejected_witness :
    (reserve emptyStore badRequest).2 = .error .validationError ∧
    (reserve emptyStore badRequest).1 = emptyStore :=
  validation_error_rejected emptyStore badRequest (Or.inl (by decide))

/-- Outcome shape of `applyEvent`: a rejection leaving the store unchanged,
or a successful transition persisting the loaded record with the version
incremented by exactly one. -/
theorem applyEvent_cases (st : Store) (cid v : Nat) (ev : ReservationEvent) :
    (∃ e, applyEvent st cid v ev = (st, .error e)) ∨
    (∃ r0 r2, st.records cid = some r0 ∧ r2.connection_id = r0.connection_id ∧
      r2.version = r0.version + 1 ∧ applyEvent st cid v ev = (st.put r2, .ok r2)) := by
  cases hrec : st.records cid with
  | none => exact Or.inl ⟨.connectionNotFound, by simp [applyEvent, hrec]⟩
  | some r0 =>
      by_cases hv : v = r0.version
      · cases htr : rsmTransition r0.reservation_state ev with
        | none =>
            exact Or.inl ⟨.invalidOperationForState,
              by simp [applyEvent, hrec, hv, htr]⟩
        | some s =>
            exact Or.inr ⟨r0,
              { r0 with reservation_state := s, version := r0.version + 1 },
              rfl, rfl, rfl, by simp [applyEvent, hrec, hv, htr]⟩
      · exact Or.inl ⟨.versionConflict, by simp [applyEvent, hrec, hv]⟩

/-- Outcome shape of `reserve`: a rejection leaving the store unchanged, a
creation at the store-assigned next id with version 0, or a modify of an
existing record with the version incremented by exactly one. -/
theorem reserve_cases (st : Store) (req : ReserveRequest) :
    (∃ e, reserve st req = (st, .error e)) ∨
    (∃ r, reserve st req =
        ({ records := fun i => if i = st.nextId then some r else st.records i
         , nextId := st.nextId + 1 }, .ok r) ∧
      r.connection_id = st.nextId ∧ r.version = 0) ∨
    (∃ cid r0 r2, req.connection_id = some cid ∧ st.records cid = some r0 ∧
      r2.connection_id = r0.connection_id ∧ r2.version = r0.version + 1 ∧
      reserve st req = (st.put r2, .ok r2)) := by
  cases hval : validateReserve req with
  | some e => exact Or.inl ⟨e, by simp [reserve, hval]⟩
  | none =>
      cases hc : req.connection_id with
      | none =>
          exact Or.inr (Or.inl ⟨
            { connection_id := st.nextId, version := 0, bandwidth := req.bandwidth
            , start_time := req.start_time, end_time := req.end_time
            , src_port := req.src_port, dst_port := req.dst_port
            , reservation_state := .ReserveChecking },
            by simp [reserve, hval, hc], rfl, rfl⟩)
      | some cid =>
          cases hrec : st.records cid with
          | none =>
              exact Or.inr (Or.inl ⟨
                { connection_id := st.nextId, version := 0, bandwidth := req.bandwidth
                , start_time := req.start_time, end_time := req.end_time
                , src_port := req.src_port, dst_port := req.dst_port
                , reservation_state := .ReserveChecking },
                by simp [reserve, hval, hc, hrec], rfl, rfl⟩)
          | some r0 =>
              by_cases hv : req.expected_version = some r0.version
              · cases htr : rsmTransition r0.reservation_state .reserve with
                | none =>
                    exact Or.inl ⟨.invalidOperationForState,
                      by simp [reserve, hval, hc, hrec, hv, htr]⟩
                | some s =>
                    exact Or.inr (Or.inr ⟨cid, r0,
                      { r0 with reservation_state := s, version := r0.version + 1 },
                      rfl, hrec, rfl, rfl,
                      by simp [reserve, hval, hc, hrec, hv, htr]⟩)
              · exact Or.inl ⟨.versionConflict,
                  by simp [reserve, hval, hc, hrec, hv]⟩

/-- A record found in a well-formed store sits strictly below the next id
the store would assign. -/
theorem found_lt_nextId (st : Store) (cid : Nat) (r : Reservation)
    (hwf : st.wf) (hr : st.records cid = some r) : cid < st.nextId := by
  by_contra hge
  rw [hwf.1 cid (by omega)] at hr
  exact Option.noConfusion hr

/-- Creating a record at the next id preserves store well-formedness. -/
theorem wf_create (st : Store) (r : Reservation)
    (hwf : st.wf) (hid : r.connection_id = st.nextId) :
    Store.wf { records := fun i => if i = st.nextId then some r else st.records i
             , nextId := st.nextId + 1 } := by
  constructor
  · intro j hj
    have hj' : st.nextId + 1 ≤ j := hj
    have h1 : j ≠ st.nextId := by omega
    show (if j = st.nextId then some r else st.records j) = none
    rw [if_neg h1]
    exact hwf.1 j (by omega)
  · intro i r2 h2
    have h2' : (if i = st.nextId then some r else st.records i) = some r2 := h2
    by_cases hi : i = st.nextId
    · subst hi
      rw [if_pos rfl] at h2'
      cases h2'
      exact hid
    · rw [if_neg hi] at h2'
      exact hwf.2 i r2 h2'

/-- Overwriting a record found in a well-formed store (keeping its
connection id) preserves store well-formedness. -/
theorem wf_put_of_found (st : Store) (cid : Nat) (r0 r2 : Reservation)
    (hwf : st.wf) (hrec : st.records cid = some r0)
    (hid : r2.connection_id = r0.connection_id) : (st.put r2).wf := by
  have hc0 : r0.connection_id = cid := hwf.2 cid r0 hrec
  have hlt : cid < st.nextId := found_lt_nextId st cid r0 hwf hrec
  constructor
  · intro j hj
    have hj' : st.nextId ≤ j := hj
    have hne : j ≠ r2.connection_id := by
      rw [hid, hc0]
      omega
    show (if j = r2.connection_id then some r2 else st.records j) = none
    rw [if_neg hne]
    exact hwf.1 j hj'
  · intro i r3 h3
    have h3' : (if i = r2.connection_id then some r2 else st.records i) = some r3 := h3
    by_cases hi : i = r2.connection_id
    · subst hi
      rw [if_pos rfl] at h3'
      cases h3'
      rfl
    · rw [if_neg hi] at h3'
      exact hwf.2 i r3 h3'

/-- One operation step preserves store well-formedness. -/
theorem step_preserves_wf (st : Store) (op : Op) (hwf : st.wf) :
    (step st op).1.wf := by
  cases op with
  | opReserve req =>
      rcases reserve_cases st req with ⟨e, h⟩ | ⟨r, h, hid, hv0⟩ |
        ⟨cid, r0, r2, hc, hrec, hid, hv, h⟩
      · simp only [step, h]
        exact hwf
      · simp only [step, h]
        exact wf_create st r hwf hid
      · simp only [step, h]
        exact wf_put_of_found st cid r0 r2 hwf hrec hid
  | opEvent cid v ev =>
      rcases applyEvent_cases st cid v ev with ⟨e, h⟩ |
        ⟨r0, r2, hrec, hid, hv, h⟩
      · simp only [step, h]
        exact hwf
      · simp only [step, h]
        exact wf_put_of_found st cid r0 r2 hwf hrec hid

/-- Overwriting one found record never decreases the version visible at
any connection id of a well-formed store. -/
theorem put_version_mono (st : Store) (cid0 cid : Nat) (r0 r2 r : Reservation)
    (hwf : st.wf) (hrec : st.records cid0 = some r0)
    (hid : r2.connection_id = r0.connection_id) (hv : r2.version = r0.version + 1)
    (hr : st.records cid = some r) :
    ∃ q, (st.put r2).records cid = some q ∧ r.version ≤ q.version := by
  have hc0 : r0.connection_id = cid0 := hwf.2 cid0 r0 hrec
  by_cases hq : cid = r2.connection_id
  · have hcc : cid = cid0 := by rw [hq, hid, hc0]
    subst hcc
    have hrr : r = r0 := by
      rw [hrec] at hr
      cases hr
      rfl
    refine ⟨r2, ?_, ?_⟩
    · simp only [Store.put, hq, if_true, if_pos]
    · rw [hv, hrr]
      omega
  · refine ⟨r, ?_, le_rfl⟩
    simp only [Store.put, hq, if_false]
    exact hr

/-- One operation step never decreases the version visible at any
connection id of a well-formed store. -/
theorem step_version_mono (st : Store) (op : Op) (cid : Nat) (r : Reservation)
    (hwf : st.wf) (hr : st.records cid = some r) :
    ∃ q, (step st op).1.records cid = some q ∧ r.version ≤ q.version := by
  have hlt : cid < st.nextId := found_lt_nextId st cid r hwf hr
  cases op with
  | opReserve req =>
      rcases reserve_cases st req with ⟨e, h⟩ | ⟨r1, h, hid, hv0⟩ |
        ⟨cid0, r0, r2, hc, hrec, hid, hv, h⟩
      · simp only [step, h]
        exact ⟨r, hr, le_rfl⟩
      · simp only [step, h]
        have hne : cid ≠ st.nextId := by omega
        refine ⟨r, ?_, le_rfl⟩
        simp only [hne, if_false]
        exact hr
      · simp only [step, h]
        exact put_version_mono st cid0 cid r0 r2 r hwf hrec hid hv hr
  | opEvent cid0 v ev =>
      rcases applyEvent_cases st cid0 v ev with ⟨e, h⟩ |
        ⟨r0, r2, hrec, hid, hv, h⟩
      · simp only [step, h]
        exact ⟨r, hr, le_rfl⟩
      · simp only [step, h]
        exact put_version_mono st cid0 cid r0 r2 r hwf hrec hid hv hr

/-- Over any operation sequence, the version visible at a connection id of
a well-formed store never decreases. -/
theorem runOps_version_mono (ops : List Op) :
    ∀ (st : Store) (cid : Nat) (r : Reservation), st.wf →
      st.records cid = some r →
      ∃ r2, (runOps st ops).records cid = some r2 ∧ r.version ≤ r2.version := by
  induction ops with
  | nil =>
      intro st cid r _ hr
      exact ⟨r, hr, le_rfl⟩
  | cons op ops ih =>
      intro st cid r hwf hr
      obtain ⟨q, hq, hle⟩ := step_version_mono st op cid r hwf hr
      obtain ⟨r2, hr2, hle2⟩ := ih (step st op).1 cid q (step_preserves_wf st op hwf) hq
      exact ⟨r2, hr2, le_trans hle hle2⟩

/-- C6: a rejected operation leaves the store unchanged; a successful
operation either creates a new record at version 0 (at a previously empty
connection id) or increments the version of the existing record by exactly
one; and over any operation sequence the version of a record never
decreases. -/
theorem version_invariant :
    (∀ st op e, (step st op).2 = .error e → (step st op).1 = st) ∧
    (∀ st op r, Store.wf st → (step st op).2 = .ok r →
      (st.records r.connection_id = none ∧ r.version = 0) ∨
      (∃ r0, st.records r.connection_id = some r0 ∧ r.version = r0.version + 1)) ∧
    (∀ st ops cid r, Store.wf st → st.records cid = some r →
      ∃ r2, (runOps st ops).records cid = some r2 ∧ r.version ≤ r2.version) := by
  refine ⟨?_, ?_, ?_⟩
  · intro st op e herr
    cases op with
    | opReserve req =>
        rcases reserve_cases st req with ⟨e1, h⟩ | ⟨r1, h, _, _⟩ |
          ⟨cid0, r0, r2, _, _, _, _, h⟩
        · simp only [step, h]
        · simp only [step, h] at herr
          exact Except.noConfusion herr
        · simp only [step, h] at herr
          exact Except.noConfusion herr
    | opEvent cid v ev =>
        rcases applyEvent_cases st cid v ev with ⟨e1, h⟩ |
          ⟨r0, r2, _, _, _, h⟩
        · simp only [step, h]
        · simp only [step, h] at herr
          exact Except.noConfusion herr
  · intro st op r hwf hok
    cases op with
    | opReserve req =>
        rcases reserve_cases st req with ⟨e1, h⟩ | ⟨r1, h, hid, hv0⟩ |
          ⟨cid0, r0, r2, hc, hrec, hid, hv, h⟩
        · simp only [step, h] at hok
          exact Except.noConfusion hok
        · simp only [step, h, Except.ok.injEq] at hok
          subst hok
          left
          rw [hid]
          exact ⟨hwf.1 st.nextId le_rfl, hv0⟩
        · simp only [step, h, Except.ok.injEq] at hok
          subst hok
          right
          refine ⟨r0, ?_, hv⟩
          rw [hid, hwf.2 cid0 r0 hrec]
          exact hrec
    | opEvent cid v ev =>
        rcases applyEvent_cases st cid v ev with ⟨e1, h⟩ |
          ⟨r0, r2, hrec, hid, hv, h⟩
        · simp only [step, h] at hok
          exact Except.noConfusion hok
        · simp only [step, h, Except.ok.injEq] at hok
          subst hok
          right
          refine ⟨r0, ?_, hv⟩
          rw [hid, hwf.2 cid r0 hrec]
          exact hrec
  · intro st ops cid r hwf hr
    exact runOps_version_mono ops st cid r hwf hr

/-- `startedStore` is well-formed. -/
theorem startedStore_wf : startedStore.wf := by
  constructor
  · intro j hj
    have hne : j ≠ 0 := by
      simp only [startedStore] at hj
      omega
    simp [startedStore, hne]
  · intro i r hr
    by_cases hi : i = 0
    · subst hi
      simp only [startedStore, if_pos rfl] at hr
      cases hr
      rfl
    · simp only [startedStore, if_neg hi] at hr
      exact Option.noConfusion hr

/-- C6 witness: on the concrete one-record store, a version-conflicting
event leaves the store unchanged, a successful confirmed event yields
version 1 from version 0, and running that event never decreases the
record's version. -/
theorem version_invariant_witness :
    (step startedStore (Op.opEvent 0 1 ReservationEvent.confirmed)).1 = startedStore ∧
    ((startedStore.records heldReservation.connection_id = none ∧
        heldReservation.version = 0) ∨
      (∃ r0, startedStore.records heldReservation.connection_id = some r0 ∧
        heldReservation.version = r0.version + 1)) ∧
    (∃ r2, (runOps startedStore
        [Op.opEvent 0 0 ReservationEvent.confirmed]).records 0 = some r2 ∧
      exampleReservation.version ≤ r2.version) := by
  have h := version_invariant
  refine ⟨h.1 startedStore (Op.opEvent 0 1 ReservationEvent.confirmed)
      SupaError.versionConflict rfl,
    h.2.1 startedStore (Op.opEvent 0 0 ReservationEvent.confirmed)
      heldReservation startedStore_wf rfl,
    h.2.2 startedStore [Op.opEvent 0 0 ReservationEvent.confirmed] 0
      exampleReservation startedStore_wf rfl⟩

end SuPA
